import Mathlib

/-!
Shallow embedding of `src/AudioBlock.cpp` (pothosware/pothos-audio).

The native PortAudio layer is modelled by an explicit environment `PaEnv`:
the device catalog (`Pa_GetDeviceCount`, `Pa_GetDeviceInfo`,
`Pa_GetDefaultInputDevice` / `Pa_GetDefaultOutputDevice` as stored values)
and the fallible native calls (`Pa_IsFormatSupported`, `Pa_OpenStream`,
`Pa_StartStream`, `Pa_Initialize`) as function fields returning an optional
native diagnostic text (none means `paNoError`).

C++ member mutation followed by a `throw` leaves the object mutated, so every
member function is embedded as `… → AudioBlock × Option BlockError`: the first
component is the object state after the call (including partial mutation on a
throwing path), the second the exception thrown, if any.

PortAudio's `PaTime` (a double) is modelled by `ℚ`; the claims settled here are
about which formula is computed, not about floating-point rounding.
-/

/-- PortAudio sample-format bit `paFloat32`. -/
def paFloat32 : Nat := 0x00000001

/-- PortAudio sample-format bit `paInt32`. -/
def paInt32 : Nat := 0x00000002

/-- PortAudio sample-format bit `paInt16`. -/
def paInt16 : Nat := 0x00000008

/-- PortAudio sample-format bit `paInt8`. -/
def paInt8 : Nat := 0x00000010

/-- PortAudio sample-format bit `paUInt8`. -/
def paUInt8 : Nat := 0x00000020

/-- PortAudio flag `paNonInterleaved`. -/
def paNonInterleaved : Nat := 0x80000000

/-- PortAudio sentinel `paNoDevice` (-1), returned by the default-device
queries when no default device is available. -/
def paNoDevice : Int := -1

/-- Largest value representable in a C `int`; `std::stoi` raises
`std::out_of_range` beyond it. -/
def INT_MAX : Nat := 2147483647

/-- Device metadata as returned by `Pa_GetDeviceInfo` (the fields the block
reads). -/
structure PaDeviceInfo where
  name : String
  hostApiName : String
  defaultLowInputLatency : ℚ
  defaultHighInputLatency : ℚ
  defaultLowOutputLatency : ℚ
  defaultHighOutputLatency : ℚ
  deriving Repr, DecidableEq

/-- The `PaStreamParameters` fields the block populates.  `sampleFormat` is
`none` while the C++ field is still uninitialised (the constructor assigns it
only when the dtype matches one of the five supported encodings). -/
structure PaStreamParameters where
  device : Int
  channelCount : Nat
  sampleFormat : Option Nat
  suggestedLatency : ℚ
  deriving Repr, DecidableEq

/-- The exceptions thrown by `AudioBlock.cpp`, by C++ exception class, each
carrying the call-site string and the message. `stdOutOfRange` models the
`std::out_of_range` escaping from `std::stoi`, and `nullDeref` marks the
undefined behaviour of dereferencing a NULL `Pa_GetDeviceInfo` result. -/
inductive BlockError where
  | notFound (callsite : String) (msg : String)
  | range (callsite : String) (msg : String)
  | invalidArgument (callsite : String) (msg : String)
  | generic (callsite : String) (msg : String)
  | stdOutOfRange (msg : String)
  | nullDeref (callsite : String)
  deriving Repr, DecidableEq

/-- The native PortAudio environment a block instance runs against.  Device
catalog queries are reads of `devices`; the fallible native calls return
`none` for `paNoError` and `some txt` for a failure with diagnostic text
`txt`; `openStream` returns the freshly allocated handle on success. -/
structure PaEnv where
  devices : List PaDeviceInfo
  defaultInputDevice : Int
  defaultOutputDevice : Int
  isFormatSupported : Option PaStreamParameters → Option PaStreamParameters → ℚ → Option String
  openStream : Option PaStreamParameters → Option PaStreamParameters → ℚ → Except String Nat
  startStream : Option Nat → Option String
  stopStream : Option Nat → Option String
  initResult : Option String

/-- Number of devices visible in the catalog (`Pa_GetDeviceCount`). -/
def PaEnv.deviceCount (env : PaEnv) : Nat := env.devices.length

/-- Device metadata lookup (`Pa_GetDeviceInfo`): NULL (`none`) for an index
outside `[0, count)`. -/
def Pa_GetDeviceInfo (devices : List PaDeviceInfo) (i : Int) : Option PaDeviceInfo :=
  if i < 0 then none else devices.get? i.toNat

/-- Size in bytes of one sample of the given format (`Pa_GetSampleSize`): a
pure function of the format bits with `paNonInterleaved` masked off; an
unrecognised or unset format yields the error code `paSampleFormatNotSupported`
(-9994). -/
def Pa_GetSampleSize (format : Option Nat) : Int :=
  match format with
  | none => -9994
  | some f =>
    let base := f % paNonInterleaved
    if base = paFloat32 then 4
    else if base = paInt32 then 4
    else if base = paInt16 then 2
    else if base = paInt8 then 1
    else if base = paUInt8 then 1
    else -9994

/-- Value of a decimal digit string (no sign, base 10). -/
def digitsVal (s : String) : Nat :=
  s.data.foldl (fun a c => a * 10 + (c.toNat - 48)) 0

/-- Embedding of `std::stoi` restricted to all-digit strings: the parsed value
when it fits in a C `int`, otherwise the `std::out_of_range` failure. -/
def stoi (s : String) : Except Unit Int :=
  if digitsVal s > INT_MAX then .error () else .ok (digitsVal s)

/-- The `AudioBlock` member state read or written by the embedded calls. -/
structure AudioBlock where
  blockName : String
  isSink : Bool
  interleaved : Bool
  sendLabel : Bool
  reportLogger : Bool
  reportStderror : Bool
  stream : Option Nat
  streamParams : PaStreamParameters
  readyTime : Nat
  deriving Repr, DecidableEq

/-- Embedding of the `AudioBlock` constructor: fails only when
`Pa_Initialize` fails; maps the five supported dtypes to their PortAudio
encodings (leaving `sampleFormat` unset otherwise — the C++ code has no `else`
branch) and ORs in `paNonInterleaved` when the channel mode is not
"INTERLEAVED".  The `device` and `suggestedLatency` fields are uninitialised
in C++ at this point; they are modelled as 0. -/
def AudioBlock.construct (env : PaEnv) (blockName : String) (isSink : Bool)
    (dtype : String) (numChans : Nat) (chanMode : String) :
    Except BlockError AudioBlock :=
  match env.initResult with
  | some txt => .error (.generic "AudioBlock()" ("Pa_Initialize: " ++ txt))
  | none =>
    let interleaved := chanMode = "INTERLEAVED"
    let fmt0 : Option Nat :=
      if dtype = "float32" then some paFloat32
      else if dtype = "int32" then some paInt32
      else if dtype = "int16" then some paInt16
      else if dtype = "int8" then some paInt8
      else if dtype = "uint8" then some paUInt8
      else none
    let fmt := if interleaved then fmt0 else fmt0.map (fun f => f ||| paNonInterleaved)
    .ok
      { blockName := blockName
        isSink := isSink
        interleaved := interleaved
        sendLabel := false
        reportLogger := false
        reportStderror := true
        stream := none
        streamParams :=
          { device := 0
            channelCount := numChans
            sampleFormat := fmt
            suggestedLatency := 0 }
        readyTime := 0 }

/-- State update helper: store a device index into the stream parameters. -/
def AudioBlock.setDevice (b : AudioBlock) (d : Int) : AudioBlock :=
  { b with streamParams := { b.streamParams with device := d } }

/-- State update helper: store a suggested latency into the stream
parameters. -/
def AudioBlock.setLatency (b : AudioBlock) (lat : ℚ) : AudioBlock :=
  { b with streamParams := { b.streamParams with suggestedLatency := lat } }

/-- First catalog index whose device name equals `name` (the linear scan of
the name-matching loop). -/
def findDeviceIdx (devices : List PaDeviceInfo) (name : String) : Option Nat :=
  devices.findIdx? (fun d => d.name == name)

/-- Embedding of `AudioBlock::setupDevice`.  Order of the source: count-zero
check, empty-selector default, all-digit numeric index (committed to
`_streamParams.device` before the range check), then linear name scan. -/
def AudioBlock.setupDevice (env : PaEnv) (b : AudioBlock) (deviceName : String) :
    AudioBlock × Option BlockError :=
  if env.deviceCount = 0 then
    (b, some (.notFound "AudioBlock::setupDevice()" "No devices available"))
  else if deviceName = "" then
    if b.isSink then (b.setDevice env.defaultOutputDevice, none)
    else (b.setDevice env.defaultInputDevice, none)
  else if deviceName.data.all Char.isDigit then
    match stoi deviceName with
    | .error _ => (b, some (.stdOutOfRange "stoi"))
    | .ok d =>
      let b2 := b.setDevice d
      if d ≥ (env.deviceCount : Int) then
        (b2, some (.range ("AudioBlock::setupDevice(" ++ deviceName ++ ")")
          "Device index out of range"))
      else (b2, none)
  else
    match findDeviceIdx env.devices deviceName with
    | some i => (b.setDevice (i : Int), none)
    | none =>
      (b, some (.notFound ("AudioBlock::setupDevice(" ++ deviceName ++ ")")
        "No matching device"))

/-- Embedding of `AudioBlock::setupStream`.  Fetches the device info (a NULL
result means the C++ code dereferences NULL, modelled as `nullDeref`),
commits the midpoint suggested latency, records the requested sample size,
queries `Pa_IsFormatSupported` with the inactive direction passed as no
parameters, opens the stream likewise, and finally re-compares the sample
size. -/
def AudioBlock.setupStream (env : PaEnv) (b : AudioBlock) (sampRate : ℚ) :
    AudioBlock × Option BlockError :=
  match Pa_GetDeviceInfo env.devices b.streamParams.device with
  | none => (b, some (.nullDeref "AudioBlock::setupStream()"))
  | some deviceInfo =>
    let lat :=
      if b.isSink then
        (deviceInfo.defaultLowOutputLatency + deviceInfo.defaultHighOutputLatency) / 2
      else
        (deviceInfo.defaultLowInputLatency + deviceInfo.defaultHighInputLatency) / 2
    let b1 := b.setLatency lat
    let requestedSize := Pa_GetSampleSize b1.streamParams.sampleFormat
    let inParams := if b1.isSink then none else some b1.streamParams
    let outParams := if b1.isSink then some b1.streamParams else none
    match env.isFormatSupported inParams outParams sampRate with
    | some txt =>
      (b1, some (.generic "AudioBlock::setupStream()" ("Pa_IsFormatSupported: " ++ txt)))
    | none =>
      match env.openStream inParams outParams sampRate with
      | .error txt =>
        (b1, some (.generic "AudioBlock::setupStream()" ("Pa_OpenStream: " ++ txt)))
      | .ok handle =>
        let b2 := { b1 with stream := some handle }
        if Pa_GetSampleSize b2.streamParams.sampleFormat ≠ requestedSize then
          (b2, some (.generic "AudioBlock::setupStream()" "Pa_GetSampleSize mismatch"))
        else (b2, none)

/-- Embedding of `AudioBlock::setReportMode`: the three accepted strings fall
through the if/else-if chain, anything else throws before the two flag
assignments. -/
def AudioBlock.setReportMode (b : AudioBlock) (mode : String) :
    AudioBlock × Option BlockError :=
  if mode = "LOGGER" ∨ mode = "STDERROR" ∨ mode = "DISABLED" then
    ({ b with reportLogger := mode == "LOGGER", reportStderror := mode == "STDERROR" }, none)
  else
    (b, some (.invalidArgument ("AudioBlock::setReportMode(" ++ mode ++ ")")
      "unknown report mode"))

/-- Embedding of `AudioBlock::activate`: the ready timestamp (`now`, the
clock value at the call) is recorded first, then the native stream is
started; `_sendLabel` is armed only after a successful start. -/
def AudioBlock.activate (env : PaEnv) (b : AudioBlock) (now : Nat) :
    AudioBlock × Option BlockError :=
  let b1 := { b with readyTime := now }
  match env.startStream b1.stream with
  | some txt =>
    (b1, some (.generic "AudioBlock::activate()" ("Pa_StartStream: " ++ txt)))
  | none => ({ b1 with sendLabel := true }, none)

/-- Embedding of `AudioBlock::deactivate`: stops the native stream, throwing
on failure; no member state is touched. -/
def AudioBlock.deactivate (env : PaEnv) (b : AudioBlock) :
    AudioBlock × Option BlockError :=
  match env.stopStream b.stream with
  | some txt =>
    (b, some (.generic "AudioBlock::deactivate()" ("Pa_StopStream: " ++ txt)))
  | none => (b, none)

/-!
Concrete fixtures used by witnesses and counterexamples.  The two-device
catalog mirrors the spec scenario ["USB Mic", "Built-in Output"].
-/

/-- Example input device "USB Mic" (catalog index 0). -/
def usbMic : PaDeviceInfo :=
  { name := "USB Mic"
    hostApiName := "ALSA"
    defaultLowInputLatency := 1
    defaultHighInputLatency := 3
    defaultLowOutputLatency := 2
    defaultHighOutputLatency := 4 }

/-- Example output device "Built-in Output" (catalog index 1). -/
def builtinOut : PaDeviceInfo :=
  { name := "Built-in Output"
    hostApiName := "ALSA"
    defaultLowInputLatency := 1
    defaultHighInputLatency := 2
    defaultLowOutputLatency := 3
    defaultHighOutputLatency := 5 }

/-- Example environment: two devices, default input 0, default output 1, all
native calls succeeding (`openStream` hands out handle 7). -/
def egEnv : PaEnv :=
  { devices := [usbMic, builtinOut]
    defaultInputDevice := 0
    defaultOutputDevice := 1
    isFormatSupported := fun _ _ _ => none
    openStream := fun _ _ _ => .ok 7
    startStream := fun _ => none
    stopStream := fun _ => none
    initResult := none }

/-- Example environment whose two devices are named "1" and "0": digit strings
as device names, for the numeric-precedence tie-break. -/
def egEnvDigitNames : PaEnv :=
  { egEnv with devices := [{ usbMic with name := "1" }, { builtinOut with name := "0" }] }

/-- Example environment advertising no default output device. -/
def egEnvNoDefault : PaEnv := { egEnv with defaultOutputDevice := paNoDevice }

/-- Example environment whose native format check rejects everything. -/
def egEnvUnsupported : PaEnv :=
  { egEnv with isFormatSupported := fun _ _ _ => some "Invalid sample rate" }

/-- Example environment whose native stream open always fails. -/
def egEnvOpenFail : PaEnv := { egEnv with openStream := fun _ _ _ => .error "Device unavailable" }

/-- Example environment whose native stream start always fails. -/
def egEnvStartFail : PaEnv := { egEnv with startStream := fun _ => some "Unanticipated host error" }

/-- Example sink block, stream not yet opened, device index 0. -/
def egBlock : AudioBlock :=
  { blockName := "eg"
    isSink := true
    interleaved := true
    sendLabel := false
    reportLogger := false
    reportStderror := true
    stream := none
    streamParams :=
      { device := 0, channelCount := 2, sampleFormat := some paFloat32, suggestedLatency := 0 }
    readyTime := 0 }

/-- Example source block (same state as `egBlock` but an input direction). -/
def egSource : AudioBlock := { egBlock with isSink := false }

/-- Example block with an opened stream handle. -/
def egBlockOpened : AudioBlock := { egBlock with stream := some 7 }

/-- The block value produced by a successful example construction
(sink, dtype "float32", 2 channels, interleaved). -/
def egConstructed : AudioBlock :=
  { blockName := "eg"
    isSink := true
    interleaved := true
    sendLabel := false
    reportLogger := false
    reportStderror := true
    stream := none
    streamParams :=
      { device := 0, channelCount := 2, sampleFormat := some paFloat32, suggestedLatency := 0 }
    readyTime := 0 }


/-- Auxiliary: a string whose characters are not all digits is not the empty
string (the empty string passes the all-digit check vacuously). -/
theorem ne_empty_of_not_all_digit (s : String) (hd : s.data.all Char.isDigit = false) :
    s ≠ "" := by
  intro hs0
  subst hs0
  simp at hd

/-- C1: selector classification is total and ordered empty → numeric → name.
With a non-empty catalog: an empty selector resolves to the catalog default
for the block direction; a non-empty all-digit selector is resolved purely
numerically — the outcome depends only on the catalog count, never on any
device name (so a device named exactly that digit string is irrelevant); any
other selector is resolved by a linear first-match case-sensitive name scan,
failing with the DeviceNotFoundError (`NotFoundException` "No matching
device") when no name matches. -/
theorem setupDevice_classification (env : PaEnv) (b : AudioBlock) (s : String)
    (hc : env.deviceCount ≠ 0) :
    (s = "" →
      AudioBlock.setupDevice env b s =
        (b.setDevice (if b.isSink then env.defaultOutputDevice else env.defaultInputDevice),
         none))
    ∧ (s ≠ "" → s.data.all Char.isDigit = true →
        ∀ env2 : PaEnv, env2.deviceCount = env.deviceCount →
          AudioBlock.setupDevice env2 b s = AudioBlock.setupDevice env b s)
    ∧ (s.data.all Char.isDigit = false →
        (∀ i, findDeviceIdx env.devices s = some i →
          AudioBlock.setupDevice env b s = (b.setDevice (i : Int), none))
        ∧ (findDeviceIdx env.devices s = none →
          AudioBlock.setupDevice env b s =
            (b, some (.notFound ("AudioBlock::setupDevice(" ++ s ++ ")") "No matching device")))) := by
  refine ⟨?_, ?_, ?_⟩
  · intro hs
    subst hs
    cases hb : b.isSink <;> simp [AudioBlock.setupDevice, hc, hb]
  · intro hne hd env2 hlen
    have hc2 : env2.deviceCount ≠ 0 := by rw [hlen]; exact hc
    unfold AudioBlock.setupDevice
    rw [hlen]
    simp [hc, hne, hd]
  · intro hd
    have hne : s ≠ "" := ne_empty_of_not_all_digit s hd
    refine ⟨?_, ?_⟩
    · intro i hi
      simp [AudioBlock.setupDevice, hc, hne, hd, hi]
    · intro hnone
      simp [AudioBlock.setupDevice, hc, hne, hd, hnone]

/-- C1 witness: in a catalog whose devices are named "1" and "0", the selector
"0" is resolved exactly as in a catalog with ordinary names — numerically, a
device named "0" notwithstanding. -/
theorem setupDevice_classification_witness :
    AudioBlock.setupDevice egEnvDigitNames egBlock "0" = AudioBlock.setupDevice egEnv egBlock "0" :=
  (setupDevice_classification egEnv egBlock "0" (by decide)).2.1 (by decide) (by decide)
    egEnvDigitNames (by decide)

/-- C6 counterexample: a sink block, a non-empty catalog that advertises no
default output device (`paNoDevice`): resolution of the empty selector
succeeds — no error at all is raised — and stores the sentinel -1 as the
device index, where the claim demands a NoDefaultDeviceError failure. -/
theorem setupDevice_empty_noDefault_counterexample :
    AudioBlock.setupDevice egEnvNoDefault egBlock "" = (egBlock.setDevice (-1), none) := by
  decide

/-- C6 amended: with a non-empty catalog, an empty selector always succeeds
and stores the value of the catalog's default-device query for the block's
direction — the default output when the block is a sink, the default input
otherwise — including the no-default sentinel `paNoDevice` (-1) when no
default is advertised; no NoDefaultDeviceError is ever raised (the code has
no such check). -/
theorem setupDevice_empty_default (env : PaEnv) (b : AudioBlock)
    (hc : env.deviceCount ≠ 0) :
    AudioBlock.setupDevice env b "" =
      (b.setDevice (if b.isSink then env.defaultOutputDevice else env.defaultInputDevice),
       none) := by
  cases hb : b.isSink <;> simp [AudioBlock.setupDevice, hc, hb]

/-- C6 witness: a source block against the example catalog resolves the empty
selector to the default input device, index 0. -/
theorem setupDevice_empty_default_witness :
    AudioBlock.setupDevice egEnv egSource "" = (egSource.setDevice 0, none) :=
  setupDevice_empty_default egEnv egSource (by decide)

/-- C5 counterexample: the all-digit selector "2147483648" has parsed value
2147483648 ≥ the catalog count 2, yet resolution fails with the
`std::out_of_range` escaping `std::stoi` (the value does not fit in a C
`int`), not with the range error the claim names DeviceIndexError. -/
theorem setupDevice_overflow_counterexample :
    "2147483648".data.all Char.isDigit = true ∧
    egEnv.deviceCount ≤ digitsVal "2147483648" ∧
    AudioBlock.setupDevice egEnv egBlock "2147483648" =
      (egBlock, some (.stdOutOfRange "stoi")) := by
  refine ⟨by decide, by decide, by decide⟩

/-- C5 amended: with a catalog count of 0 resolution always fails with
NoDevicesAvailableError regardless of the selector; a non-empty all-digit
selector whose parsed value fits in a C `int` fails with DeviceIndexError when
the value is ≥ the catalog count and succeeds with exactly that index when it
is in [0, count); an all-digit selector whose parsed value exceeds `INT_MAX`
fails with the `std::out_of_range` raised by `std::stoi` instead. -/
theorem setupDevice_numeric (env : PaEnv) (b : AudioBlock) (s : String) :
    (env.deviceCount = 0 →
      AudioBlock.setupDevice env b s =
        (b, some (.notFound "AudioBlock::setupDevice()" "No devices available")))
    ∧ (env.deviceCount ≠ 0 → s ≠ "" → s.data.all Char.isDigit = true →
        (digitsVal s ≤ INT_MAX → env.deviceCount ≤ digitsVal s →
          AudioBlock.setupDevice env b s =
            (b.setDevice (digitsVal s),
             some (.range ("AudioBlock::setupDevice(" ++ s ++ ")") "Device index out of range")))
        ∧ (digitsVal s ≤ INT_MAX → digitsVal s < env.deviceCount →
          AudioBlock.setupDevice env b s = (b.setDevice (digitsVal s), none))
        ∧ (INT_MAX < digitsVal s →
          AudioBlock.setupDevice env b s = (b, some (.stdOutOfRange "stoi")))) := by
  refine ⟨?_, ?_⟩
  · intro hc
    simp [AudioBlock.setupDevice, hc]
  · intro hc hne hd
    have hstoi_ok : digitsVal s ≤ INT_MAX → stoi s = .ok (digitsVal s) := by
      intro hle
      unfold stoi
      rw [if_neg (by omega)]
    refine ⟨?_, ?_, ?_⟩
    · intro hle hge
      simp [AudioBlock.setupDevice, hc, hne, hd, hstoi_ok hle]
      exact hge
    · intro hle hlt
      simp [AudioBlock.setupDevice, hc, hne, hd, hstoi_ok hle]
      exact hlt
    · intro hgt
      have hstoi_err : stoi s = .error () := by
        unfold stoi
        rw [if_pos (by omega)]
      simp [AudioBlock.setupDevice, hc, hne, hd, hstoi_err]

/-- C5 witness: selector "1" against the two-device catalog resolves to index
1 (the spec's own scenario). -/
theorem setupDevice_numeric_witness :
    AudioBlock.setupDevice egEnv egBlock "1" = (egBlock.setDevice 1, none) :=
  ((setupDevice_numeric egEnv egBlock "1").2 (by decide) (by decide) (by decide)).2.1
    (by decide) (by decide)

/-- C4 counterexample: resolution of selector "5" on a 2-device catalog fails
with the range error (DeviceIndexError), yet deviceIndex — 0 before the
call — holds the parsed out-of-range value 5 afterwards: the assignment
precedes the range check, so the configuration is partially mutated on this
failure. -/
theorem setupDevice_mutation_counterexample :
    egBlock.streamParams.device = 0 ∧
    (AudioBlock.setupDevice egEnv egBlock "5").2 =
      some (.range "AudioBlock::setupDevice(5)" "Device index out of range") ∧
    (AudioBlock.setupDevice egEnv egBlock "5").1.streamParams.device = 5 := by
  refine ⟨rfl, by decide, by decide⟩


/-- C4 amended: device resolution failing with DeviceIndexError has already
committed the parsed index, so after that failure deviceIndex holds the
out-of-range parsed value; every other device-resolution failure leaves the
whole configuration at its pre-call value.  Stream negotiation failing at the
format-support or open step has already committed suggestedLatency to the
computed midpoint (only that field changes); when the device-info lookup
itself yields no descriptor the state is unchanged. -/
theorem setup_partial_mutation (env : PaEnv) (b : AudioBlock) (s : String) (r : ℚ) :
    (∀ cs m, (AudioBlock.setupDevice env b s).2 = some (.range cs m) →
      (AudioBlock.setupDevice env b s).1 = b.setDevice (digitsVal s))
    ∧ (∀ e, (AudioBlock.setupDevice env b s).2 = some e → (∀ cs m, e ≠ .range cs m) →
      (AudioBlock.setupDevice env b s).1 = b)
    ∧ (∀ info, Pa_GetDeviceInfo env.devices b.streamParams.device = some info →
        (AudioBlock.setupStream env b r).2 ≠ none →
        (AudioBlock.setupStream env b r).1 =
          b.setLatency
            (if b.isSink then
              (info.defaultLowOutputLatency + info.defaultHighOutputLatency) / 2
             else
              (info.defaultLowInputLatency + info.defaultHighInputLatency) / 2))
    ∧ (Pa_GetDeviceInfo env.devices b.streamParams.device = none →
        (AudioBlock.setupStream env b r).1 = b) := by
  have hdev : ∀ b2 err, AudioBlock.setupDevice env b s = (b2, err) →
      (∀ cs m, err = some (.range cs m) → b2 = b.setDevice (digitsVal s))
      ∧ (∀ e, err = some e → (∀ cs m, e ≠ .range cs m) → b2 = b) := by
    intro b2 err hres
    simp only [AudioBlock.setupDevice] at hres
    split at hres
    · injection hres with h1 h2
      subst h1; subst h2
      exact ⟨fun cs m h => (by simp at h), fun e he _ => rfl⟩
    · split at hres
      · split at hres <;>
          (injection hres with h1 h2; subst h1; subst h2;
           exact ⟨fun cs m h => (by simp at h), fun e he _ => (by simp at he)⟩)
      · split at hres
        · split at hres
          · injection hres with h1 h2
            subst h1; subst h2
            exact ⟨fun cs m h => (by simp at h), fun e he _ => rfl⟩
          · rename_i d hstoi
            have hd : d = (digitsVal s : Int) := by
              unfold stoi at hstoi
              split at hstoi
              · cases hstoi
              · injection hstoi with h
                exact h.symm
            subst hd
            split at hres
            · injection hres with h1 h2
              subst h1; subst h2
              refine ⟨fun cs m h => rfl, fun e he hnr => ?_⟩
              injection he with he
              exact absurd he.symm (hnr _ _)
            · injection hres with h1 h2
              subst h1; subst h2
              exact ⟨fun cs m h => (by simp at h), fun e he _ => (by simp at he)⟩
        · split at hres
          · injection hres with h1 h2
            subst h1; subst h2
            exact ⟨fun cs m h => (by simp at h), fun e he _ => (by simp at he)⟩
          · injection hres with h1 h2
            subst h1; subst h2
            exact ⟨fun cs m h => (by simp at h), fun e he _ => rfl⟩
  have hstr : ∀ b2 err, AudioBlock.setupStream env b r = (b2, err) →
      (∀ info, Pa_GetDeviceInfo env.devices b.streamParams.device = some info → err ≠ none →
        b2 = b.setLatency
          (if b.isSink then
            (info.defaultLowOutputLatency + info.defaultHighOutputLatency) / 2
           else
            (info.defaultLowInputLatency + info.defaultHighInputLatency) / 2))
      ∧ (Pa_GetDeviceInfo env.devices b.streamParams.device = none → b2 = b) := by
    intro b2 err hres
    simp only [AudioBlock.setupStream] at hres
    split at hres
    · rename_i hnone
      injection hres with h1 h2
      subst h1; subst h2
      refine ⟨fun info hinfo _ => ?_, fun _ => rfl⟩
      rw [hnone] at hinfo
      cases hinfo
    · rename_i deviceInfo hsome
      split at hres
      · injection hres with h1 h2
        subst h1; subst h2
        refine ⟨fun info hinfo _ => ?_, fun hn => ?_⟩
        · rw [hsome] at hinfo
          injection hinfo with hinfo
          subst hinfo
          rfl
        · rw [hsome] at hn
          cases hn
      · split at hres
        · injection hres with h1 h2
          subst h1; subst h2
          refine ⟨fun info hinfo _ => ?_, fun hn => ?_⟩
          · rw [hsome] at hinfo
            injection hinfo with hinfo
            subst hinfo
            rfl
          · rw [hsome] at hn
            cases hn
        · rw [if_neg (show ¬_ from fun hco => hco rfl)] at hres
          injection hres with h1 h2
          subst h1; subst h2
          refine ⟨fun info hinfo hne => absurd rfl hne, fun hn => ?_⟩
          rw [hsome] at hn
          cases hn
  have hmain := hdev (AudioBlock.setupDevice env b s).1 (AudioBlock.setupDevice env b s).2 rfl
  have hmain2 := hstr (AudioBlock.setupStream env b r).1 (AudioBlock.setupStream env b r).2 rfl
  exact ⟨hmain.1, hmain.2, hmain2.1, hmain2.2⟩

/-- C4 witness: the DeviceIndexError clause applied to selector "5" on the
two-device catalog — the failed call leaves deviceIndex at the parsed value
5. -/
theorem setup_partial_mutation_witness :
    (AudioBlock.setupDevice egEnv egBlock "5").1 = egBlock.setDevice 5 :=
  (setup_partial_mutation egEnv egBlock "5" 0).1 "AudioBlock::setupDevice(5)"
    "Device index out of range" (by decide)

/-- C2: starting from a block with no stream handle, every failing
`setupStream` call leaves the handle absent (so a retry starts again from the
unopened state), and every successful call stores exactly the one handle the
native open returned. -/
theorem setupStream_no_partial_handle (env : PaEnv) (b : AudioBlock) (r : ℚ)
    (h : b.stream = none) :
    ((AudioBlock.setupStream env b r).2 ≠ none →
      (AudioBlock.setupStream env b r).1.stream = none)
    ∧ ((AudioBlock.setupStream env b r).2 = none →
      ∃ handle, (AudioBlock.setupStream env b r).1.stream = some handle) := by
  have key : ∀ b2 err, AudioBlock.setupStream env b r = (b2, err) →
      (err ≠ none → b2.stream = none) ∧ (err = none → ∃ handle, b2.stream = some handle) := by
    intro b2 err hres
    simp only [AudioBlock.setupStream] at hres
    split at hres
    · injection hres with h1 h2
      subst h1; subst h2
      exact ⟨fun _ => h, fun hn => (by simp at hn)⟩
    · split at hres
      · injection hres with h1 h2
        subst h1; subst h2
        exact ⟨fun _ => h, fun hn => (by simp at hn)⟩
      · split at hres
        · injection hres with h1 h2
          subst h1; subst h2
          exact ⟨fun _ => h, fun hn => (by simp at hn)⟩
        · rename_i handle hopen
          rw [if_neg (show ¬_ from fun hco => hco rfl)] at hres
          injection hres with h1 h2
          subst h1; subst h2
          exact ⟨fun hne => absurd rfl hne, fun _ => ⟨handle, rfl⟩⟩
  have hk := key (AudioBlock.setupStream env b r).1 (AudioBlock.setupStream env b r).2 rfl
  exact hk

/-- C2 witness: a native open failure leaves the handle absent. -/
theorem setupStream_no_partial_handle_witness :
    (AudioBlock.setupStream egEnvOpenFail egBlock 44100).1.stream = none :=
  (setupStream_no_partial_handle egEnvOpenFail egBlock 44100 rfl).1 (by decide)

/-- C7: against a resolved device descriptor, a successful negotiation stores
the midpoint of the descriptor's default low/high latencies for the block's
direction as suggestedLatency, and the native format-support query is issued
with the inactive direction as no parameters (input side empty for a sink,
output side empty for a source); when that query rejects, the call fails with
FormatNotSupportedError carrying the native diagnostic text. -/
theorem setupStream_midpoint_support (env : PaEnv) (b : AudioBlock) (r : ℚ)
    (info : PaDeviceInfo) (mid : ℚ)
    (hinfo : Pa_GetDeviceInfo env.devices b.streamParams.device = some info)
    (hmid : mid = if b.isSink then
        (info.defaultLowOutputLatency + info.defaultHighOutputLatency) / 2
      else
        (info.defaultLowInputLatency + info.defaultHighInputLatency) / 2) :
    ((AudioBlock.setupStream env b r).2 = none →
      (AudioBlock.setupStream env b r).1.streamParams.suggestedLatency = mid)
    ∧ (∀ txt,
        env.isFormatSupported
          (if b.isSink then none else some ((b.setLatency mid).streamParams))
          (if b.isSink then some ((b.setLatency mid).streamParams) else none) r = some txt →
        AudioBlock.setupStream env b r =
          (b.setLatency mid,
           some (.generic "AudioBlock::setupStream()" ("Pa_IsFormatSupported: " ++ txt)))) := by
  subst hmid
  refine ⟨?_, ?_⟩
  · have key : ∀ b2 err, AudioBlock.setupStream env b r = (b2, err) →
        err = none → b2.streamParams.suggestedLatency =
          (if b.isSink then
            (info.defaultLowOutputLatency + info.defaultHighOutputLatency) / 2
           else
            (info.defaultLowInputLatency + info.defaultHighInputLatency) / 2) := by
      intro b2 err hres
      simp only [AudioBlock.setupStream] at hres
      split at hres
      · rename_i hnone
        rw [hnone] at hinfo
        cases hinfo
      · rename_i deviceInfo hsome
        rw [hsome] at hinfo
        injection hinfo with hinfo2
        subst hinfo2
        split at hres
        · injection hres with h1 h2
          subst h1; subst h2
          exact fun hn => (by simp at hn)
        · split at hres
          · injection hres with h1 h2
            subst h1; subst h2
            exact fun hn => (by simp at hn)
          · rw [if_neg (show ¬_ from fun hco => hco rfl)] at hres
            injection hres with h1 h2
            subst h1; subst h2
            intro _
            cases hb : b.isSink <;> simp [AudioBlock.setLatency, hb]
    exact key (AudioBlock.setupStream env b r).1 (AudioBlock.setupStream env b r).2 rfl
  · intro txt htxt
    simp only [AudioBlock.setupStream]
    rw [hinfo]
    split
    · rename_i heq
      cases heq
    · rename_i deviceInfo heq
      injection heq with heq
      subst heq
      cases hb : b.isSink
      · split
        · rename_i txt2 heq2
          simp only [AudioBlock.setLatency, hb, Bool.false_eq_true, if_false] at htxt heq2
          rw [heq2] at htxt
          injection htxt with htxt
          subst htxt
          simp [hb, AudioBlock.setLatency]
        · rename_i heq2
          simp only [AudioBlock.setLatency, hb, Bool.false_eq_true, if_false] at htxt heq2
          rw [heq2] at htxt
          cases htxt
      · split
        · rename_i txt2 heq2
          simp only [AudioBlock.setLatency, hb, if_true] at htxt heq2
          rw [heq2] at htxt
          injection htxt with htxt
          subst htxt
          simp [hb, AudioBlock.setLatency]
        · rename_i heq2
          simp only [AudioBlock.setLatency, hb, if_true] at htxt heq2
          rw [heq2] at htxt
          cases htxt

/-- C7 witness: a sink on device 0 ("USB Mic", default output latencies 2 and
4) negotiates successfully and stores the midpoint latency 3. -/
theorem setupStream_midpoint_support_witness :
    (AudioBlock.setupStream egEnv egBlock 48000).1.streamParams.suggestedLatency = 3 :=
  (setupStream_midpoint_support egEnv egBlock 48000 usbMic 3 rfl
    (by norm_num [egBlock, usbMic])).1 rfl

/-- C8 counterexample: activate at clock value 5 on a block whose ready
timestamp is 0, against a native layer whose stream start fails: the call
fails, yet the ready timestamp reads 5 afterwards — it is recorded before the
native start, not only on success as the claim states. -/
theorem activate_timestamp_counterexample :
    egBlockOpened.readyTime = 0 ∧
    (AudioBlock.activate egEnvStartFail egBlockOpened 5).2 ≠ none ∧
    (AudioBlock.activate egEnvStartFail egBlockOpened 5).1.readyTime = 5 := by
  refine ⟨rfl, by decide, rfl⟩

/-- C8 amended: activate() records the ready timestamp unconditionally,
before the native start; label emission is armed only on success; on a native
start failure the call fails with StreamStartError carrying the native text
and every member except the ready timestamp keeps its pre-call value. -/
theorem activate_spec (env : PaEnv) (b : AudioBlock) (now : Nat) :
    (env.startStream b.stream = none →
      AudioBlock.activate env b now = ({ b with readyTime := now, sendLabel := true }, none))
    ∧ (∀ txt, env.startStream b.stream = some txt →
      AudioBlock.activate env b now =
        ({ b with readyTime := now },
         some (.generic "AudioBlock::activate()" ("Pa_StartStream: " ++ txt)))) := by
  refine ⟨?_, ?_⟩
  · intro hok
    simp only [AudioBlock.activate]
    rw [hok]
  · intro txt hfail
    simp only [AudioBlock.activate]
    rw [hfail]

/-- C8 witness: a successful start records the clock value 9 and arms the
label. -/
theorem activate_spec_witness :
    AudioBlock.activate egEnv egBlockOpened 9 =
      ({ egBlockOpened with readyTime := 9, sendLabel := true }, none) :=
  (activate_spec egEnv egBlockOpened 9).1 rfl

/-- C9: setReportMode accepts exactly "LOGGER", "STDERROR" and "DISABLED":
any other argument fails with InvalidReportModeError
(`InvalidArgumentException` "unknown report mode") leaving both report flags
untouched; an accepted mode sets the two flags mutually exclusively
(last-write-wins), so LOGGER followed by STDERROR leaves exactly
stderr-reporting active and logger-reporting inactive. -/
theorem setReportMode_spec (b : AudioBlock) (mode : String) :
    (mode ≠ "LOGGER" → mode ≠ "STDERROR" → mode ≠ "DISABLED" →
      AudioBlock.setReportMode b mode =
        (b, some (.invalidArgument ("AudioBlock::setReportMode(" ++ mode ++ ")")
          "unknown report mode")))
    ∧ (mode = "LOGGER" ∨ mode = "STDERROR" ∨ mode = "DISABLED" →
      (AudioBlock.setReportMode b mode).2 = none ∧
      (AudioBlock.setReportMode b mode).1.reportLogger = (mode == "LOGGER") ∧
      (AudioBlock.setReportMode b mode).1.reportStderror = (mode == "STDERROR"))
    ∧ ((AudioBlock.setReportMode (AudioBlock.setReportMode b "LOGGER").1 "STDERROR").1.reportStderror
        = true
      ∧ (AudioBlock.setReportMode (AudioBlock.setReportMode b "LOGGER").1 "STDERROR").1.reportLogger
        = false) := by
  refine ⟨?_, ?_, ?_⟩
  · intro h1 h2 h3
    simp [AudioBlock.setReportMode, h1, h2, h3]
  · intro hacc
    simp [AudioBlock.setReportMode, hacc]
  · constructor <;> simp [AudioBlock.setReportMode]

/-- C9 witness: the rejection clause applied at the concrete mode "VERBOSE". -/
theorem setReportMode_spec_witness :
    AudioBlock.setReportMode egBlock "VERBOSE" =
      (egBlock,
       some (.invalidArgument "AudioBlock::setReportMode(VERBOSE)" "unknown report mode")) :=
  (setReportMode_spec egBlock "VERBOSE").1 (by decide) (by decide) (by decide)

/-- C3: code-bug evidence — construction with the unsupported dtype "float64"
does not fail at all (the five dtype ifs have no rejecting else branch): it
returns a block whose sampleFormat is still unset, the silent fallthrough the
design documentation says must be an explicit UnsupportedFormatError. -/
theorem construct_unsupported_dtype_bug :
    AudioBlock.construct egEnv "test" false "float64" 2 "INTERLEAVED" =
      .ok
        { blockName := "test"
          isSink := false
          interleaved := true
          sendLabel := false
          reportLogger := false
          reportStderror := true
          stream := none
          streamParams :=
            { device := 0, channelCount := 2, sampleFormat := none, suggestedLatency := 0 }
          readyTime := 0 } := by
  rfl

/-- C10: every successful construction starts with stderr-reporting active
and logger-reporting inactive (the initialiser list sets `_reportStderror`
true and `_reportLogger` false before any setReportMode call). -/
theorem construct_default_report_mode (env : PaEnv) (blockName : String) (isSink : Bool)
    (dtype : String) (numChans : Nat) (chanMode : String) (b : AudioBlock)
    (h : AudioBlock.construct env blockName isSink dtype numChans chanMode = .ok b) :
    b.reportStderror = true ∧ b.reportLogger = false := by
  simp only [AudioBlock.construct] at h
  split at h
  · cases h
  · injection h with h
    subst h
    exact ⟨rfl, rfl⟩

/-- C10 witness: the constructed example block reports to stderr only. -/
theorem construct_default_report_mode_witness :
    egConstructed.reportStderror = true ∧ egConstructed.reportLogger = false :=
  construct_default_report_mode egEnv "eg" true "float32" 2 "INTERLEAVED" egConstructed rfl
